import Mathlib

/-!
Shallow embedding of the advice-chat matchmaking and session core of the
"Let's Talk Aquariums" backend (`src/server.js`), together with theorems
settling the specification claims about it.

Modelling conventions:
* Socket ids, user ids, usernames, room names, session ids and message ids
  are `String`s (transport-assigned opaque identifiers in the source).
* `Date.now()` timestamps and the randomly generated session/message ids are
  nondeterministic inputs of the source; each handler takes them as explicit
  parameters.
* JavaScript `Map`s are modelled as association lists with in-place
  overwrite (`mapSet`), matching `Map.set` semantics (keys stay unique and
  keep their position when overwritten).
* A JS value that is `null`/absent is `Option.none`.
* Outbound `socket.emit`/`io.to(..).emit` calls are collected into a list of
  `Emit` events returned alongside the new state.
-/

/-- Experience levels for advice chat (`EXPERIENCE_LEVELS` in server.js). -/
inductive Level where
  | Beginner
  | Intermediate
  | Advanced
deriving DecidableEq, Repr

/-- Validation of a client-supplied level string,
mirroring `Object.values(EXPERIENCE_LEVELS).includes(level)` followed by the
`level.toLowerCase()` queue-key selection in the `join-advice-queue` handler. -/
def parseLevel (levelStr : String) : Option Level :=
  if levelStr == "Beginner" then some Level.Beginner
  else if levelStr == "Intermediate" then some Level.Intermediate
  else if levelStr == "Advanced" then some Level.Advanced
  else none

/-- Queue entry pushed by the `join-advice-queue` handler. -/
structure QueueEntry where
  socketId : String
  userId : String
  username : String
  level : Level
  topic : Option String
  joinedAt : Nat
deriving DecidableEq, Repr

/-- The three level-keyed waitlists (`adviceQueue` in server.js). -/
structure AdviceQueue where
  beginner : List QueueEntry
  intermediate : List QueueEntry
  advanced : List QueueEntry
deriving DecidableEq, Repr

/-- Queue list for a level (`adviceQueue[level.toLowerCase()]`). -/
def queueOf (q : AdviceQueue) : Level → List QueueEntry
  | Level.Beginner => q.beginner
  | Level.Intermediate => q.intermediate
  | Level.Advanced => q.advanced

/-- Push an entry at the tail of the queue list for a level
(`adviceQueue[queueKey].push(queueEntry)`). -/
def pushQueue (q : AdviceQueue) : Level → QueueEntry → AdviceQueue
  | Level.Beginner, e => { q with beginner := q.beginner ++ [e] }
  | Level.Intermediate, e => { q with intermediate := q.intermediate ++ [e] }
  | Level.Advanced, e => { q with advanced := q.advanced ++ [e] }

/-- Candidate-pool selection inside `findMatch` (server.js lines 185-210):
the `let candidates = []` initialisation followed by the per-level
`if (... .length > 0)` chains. -/
def matchCandidates (q : AdviceQueue) (level : Level) : List QueueEntry :=
  match level with
  | Level.Beginner =>
    if q.intermediate.length > 0 then q.intermediate
    else if q.advanced.length > 0 then q.advanced
    else []
  | Level.Intermediate =>
    if q.intermediate.length > 0 then q.intermediate
    else if q.advanced.length > 0 then q.advanced
    else []
  | Level.Advanced =>
    if q.beginner.length > 0 then q.beginner
    else if q.intermediate.length > 0 then q.intermediate
    else if q.advanced.length > 0 then q.advanced
    else []

/-- Match selection (`findMatch` in server.js lines 184-222).
`candidates.find(user => user.topic === topic)` is the `find?`;
`candidates.length > 0 ? candidates[0] : null` is the `head?`
(the source guards the topic scan with `candidates.length > 0`, which is
redundant since `find` on an empty array yields `undefined`). -/
def findMatch (q : AdviceQueue) (level : Level) (topic : Option String) :
    Option QueueEntry :=
  let candidates := matchCandidates q level
  match topic with
  | some t =>
    match candidates.find? (fun user => user.topic == some t) with
    | some topicMatch => some topicMatch
    | none => candidates.head?
  | none => candidates.head?

/-- Remove a socket from every queue list (`removeFromQueue` in server.js
lines 228-232: a filter on `user.socketId !== socketId` on each list). -/
def removeFromQueue (q : AdviceQueue) (socketId : String) : AdviceQueue :=
  { beginner := q.beginner.filter (fun user => user.socketId != socketId),
    intermediate := q.intermediate.filter (fun user => user.socketId != socketId),
    advanced := q.advanced.filter (fun user => user.socketId != socketId) }

/-- Number of queue entries carrying a given socket id, summed over the
three level lists (used to state the queue-exclusivity invariant). -/
def countQ (q : AdviceQueue) (c : String) : Nat :=
  q.beginner.countP (fun u => u.socketId == c) +
  q.intermediate.countP (fun u => u.socketId == c) +
  q.advanced.countP (fun u => u.socketId == c)

/-- Truth of "some entry of some queue list carries this socket id". -/
def inQueue (q : AdviceQueue) (c : String) : Bool :=
  q.beginner.any (fun u => u.socketId == c) ||
  q.intermediate.any (fun u => u.socketId == c) ||
  q.advanced.any (fun u => u.socketId == c)

/-- Lookup in an association list, mirroring JS `Map.get`. -/
def mapGet {α : Type} (l : List (String × α)) (k : String) : Option α :=
  match l.find? (fun p => p.fst == k) with
  | some p => some p.snd
  | none => none

/-- Insert-or-overwrite in an association list, mirroring JS `Map.set`
(an existing key keeps its position; a new key is appended at the end). -/
def mapSet {α : Type} (l : List (String × α)) (k : String) (v : α) :
    List (String × α) :=
  match l with
  | [] => [(k, v)]
  | p :: rest => if p.fst == k then (k, v) :: rest else p :: mapSet rest k v

/-- Key removal in an association list, mirroring JS `Map.delete`. -/
def mapErase {α : Type} (l : List (String × α)) (k : String) :
    List (String × α) :=
  l.filter (fun p => p.fst != k)

/-- Participant record inside a session (`user1`/`user2` in `attemptMatch`). -/
structure Participant where
  socketId : String
  userId : String
  username : String
  level : Level
deriving DecidableEq, Repr

/-- Advice message record built by the `advice-message` handler. -/
structure MessageData where
  id : String
  sessionId : String
  userId : String
  username : String
  message : String
  photo : Option String
  timestamp : Nat
deriving DecidableEq, Repr

/-- Feedback record stored by the `submit-feedback` handler. -/
structure Feedback where
  rating : Nat
  comment : Option String
  timestamp : Nat
deriving DecidableEq, Repr

/-- Advice session data (`session` object created in `attemptMatch`).
`feedback` is keyed by user id (`session.feedback[userInfo.userId] = ...`). -/
structure Session where
  sessionId : String
  user1 : Participant
  user2 : Participant
  topic : Option String
  createdAt : Nat
  messages : List MessageData
  ended : Bool
  endedAt : Option Nat
  endedBy : Option String
  feedback : List (String × Feedback)
deriving DecidableEq, Repr

/-- Per-connection identity record created by the `authenticate` handler. -/
structure UserInfo where
  userId : String
  username : String
  level : String
  tankType : Option String
  tankSize : Option String
  favoriteFish : List String
  favoritePlants : List String
  profilePicture : Option String
  socketId : String
  connectedAt : Nat
deriving DecidableEq, Repr

/-- Client payload of the `authenticate` event (`userData` in server.js). -/
structure AuthPayload where
  userId : Option String
  username : Option String
  level : Option String
  tankType : Option String
  tankSize : Option String
  favoriteFish : List String
  favoritePlants : List String
  profilePicture : Option String
deriving DecidableEq, Repr

/-- The in-memory server state: `activeUsers`, `userSockets`, `roomMembers`,
`adviceQueue` and `activeAdviceSessions` from server.js lines 137-151. -/
structure ServerState where
  activeUsers : List (String × UserInfo)
  userSockets : List (String × String)
  roomMembers : List (String × List String)
  adviceQueue : AdviceQueue
  sessions : List (String × Session)
deriving DecidableEq, Repr

/-- Outbound events emitted by the handlers (socket.io `emit` calls). -/
inductive Emit where
  | errorMsg (dest : String) (message : String)
  | authenticated (dest : String) (userId : String) (username : String)
  | roomJoined (dest : String) (room : String)
  | userJoinedRoom (room : String) (username : String)
  | roomLeft (dest : String) (room : String)
  | userLeftRoom (room : String) (username : String)
  | queued (dest : String) (level : Level) (topic : Option String) (position : Nat)
  | matched (dest : String) (sessionId : String) (partnerUsername : String)
      (partnerLevel : Level) (topic : Option String)
  | queueLeft (dest : String)
  | adviceMessageOut (dest : String) (msg : MessageData)
  | adviceMessageSent (dest : String) (msgId : String)
  | sessionEnded (dest : String) (sessionId : String)
  | requestFeedback (dest : String) (sessionId : String)
  | feedbackSubmitted (dest : String) (sessionId : String)
  | partnerDisconnected (dest : String) (sessionId : String)
deriving DecidableEq, Repr

/-- The fixed general-room names (`GENERAL_ROOMS` in server.js). -/
def GENERAL_ROOMS : List String :=
  ["Freshwater", "Saltwater", "Reef", "Community Tank", "Photos & Stories"]

/-- Handler for the `authenticate` event (server.js lines 291-317):
defaults are `userData.userId || socket.id`,
`userData.username || User_ + first six chars of socket.id`,
`userData.level || Beginner`; the record is stored under both indexes. -/
def authenticateHandler (s : ServerState) (sid : String) (data : AuthPayload)
    (now : Nat) : ServerState × List Emit :=
  let userInfo : UserInfo := {
    userId := data.userId.getD sid,
    username := data.username.getD ("User_" ++ sid.take 6),
    level := data.level.getD "Beginner",
    tankType := data.tankType,
    tankSize := data.tankSize,
    favoriteFish := data.favoriteFish,
    favoritePlants := data.favoritePlants,
    profilePicture := data.profilePicture,
    socketId := sid,
    connectedAt := now }
  ({ s with activeUsers := mapSet s.activeUsers sid userInfo,
            userSockets := mapSet s.userSockets userInfo.userId sid },
   [Emit.authenticated sid userInfo.userId userInfo.username])

/-- Handler for the `join-room` event (server.js lines 333-358). -/
def joinRoomHandler (s : ServerState) (sid room : String) :
    ServerState × List Emit :=
  if !(GENERAL_ROOMS.contains room) then
    (s, [Emit.errorMsg sid "Invalid room name"])
  else
    let members := (mapGet s.roomMembers room).getD []
    let members1 := if members.contains sid then members else members ++ [sid]
    let username := match mapGet s.activeUsers sid with
      | some u => u.username
      | none => "Anonymous"
    ({ s with roomMembers := mapSet s.roomMembers room members1 },
     [Emit.roomJoined sid room, Emit.userJoinedRoom room username])

/-- Handler for the `leave-room` event (server.js lines 363-372). -/
def leaveRoomHandler (s : ServerState) (sid room : String) :
    ServerState × List Emit :=
  let roomMembers1 := match mapGet s.roomMembers room with
    | some members =>
        mapSet s.roomMembers room (members.filter (fun m => m != sid))
    | none => s.roomMembers
  ({ s with roomMembers := roomMembers1 }, [Emit.roomLeft sid room])

/-- Matching on join (`attemptMatch` in server.js lines 512-569): looks up the
requester's queue entry, runs `findMatch`, rejects a self-match
(`match.socketId !== socketId`), removes both parties from every queue, stores
the new session (topic resolved as `topic || match.topic || null`), and emits
`matched` to both parties. -/
def attemptMatch (s : ServerState) (sid : String) (level : Level)
    (topic : Option String) (now : Nat) (newSessionId : String) :
    ServerState × List Emit :=
  match (queueOf s.adviceQueue level).find? (fun u => u.socketId == sid) with
  | none => (s, [])
  | some queueEntry =>
    match findMatch s.adviceQueue level topic with
    | none => (s, [])
    | some m =>
      if m.socketId != sid then
        let q1 := removeFromQueue (removeFromQueue s.adviceQueue sid) m.socketId
        let sess : Session := {
          sessionId := newSessionId,
          user1 := { socketId := sid, userId := queueEntry.userId,
                     username := queueEntry.username, level := queueEntry.level },
          user2 := { socketId := m.socketId, userId := m.userId,
                     username := m.username, level := m.level },
          topic := (match topic with
                    | some t => some t
                    | none => m.topic),
          createdAt := now,
          messages := [],
          ended := false,
          endedAt := none,
          endedBy := none,
          feedback := [] }
        ({ s with adviceQueue := q1,
                  sessions := mapSet s.sessions newSessionId sess },
         [Emit.matched sid newSessionId m.username m.level sess.topic,
          Emit.matched m.socketId newSessionId queueEntry.username
            queueEntry.level sess.topic])
      else (s, [])

/-- Handler for the `join-advice-queue` event (server.js lines 458-498):
requires authentication, validates the level, unconditionally removes any
existing queue entry for the socket, pushes the new entry, emits `queued`
with the new queue length as position, then attempts an immediate match. -/
def joinAdviceQueueHandler (s : ServerState) (sid levelStr : String)
    (topic : Option String) (now : Nat) (newSessionId : String) :
    ServerState × List Emit :=
  match mapGet s.activeUsers sid with
  | none => (s, [Emit.errorMsg sid "Not authenticated"])
  | some userInfo =>
    match parseLevel levelStr with
    | none => (s, [Emit.errorMsg sid "Invalid experience level"])
    | some level =>
      let q0 := removeFromQueue s.adviceQueue sid
      let entry : QueueEntry := {
        socketId := sid,
        userId := userInfo.userId,
        username := userInfo.username,
        level := level,
        topic := topic,
        joinedAt := now }
      let q1 := pushQueue q0 level entry
      let s1 := { s with adviceQueue := q1 }
      let r := attemptMatch s1 sid level topic now newSessionId
      (r.fst, Emit.queued sid level topic (queueOf q1 level).length :: r.snd)

/-- Handler for the `leave-advice-queue` event (server.js lines 503-507). -/
def leaveAdviceQueueHandler (s : ServerState) (sid : String) :
    ServerState × List Emit :=
  ({ s with adviceQueue := removeFromQueue s.adviceQueue sid },
   [Emit.queueLeft sid])

/-- Handler for the `advice-message` event (server.js lines 574-634).
Check order in the source: authentication, session existence, participancy,
ended flag; on success the message is appended to the session log and sent
to the partner only. -/
def adviceMessageHandler (s : ServerState) (sid sessionId message : String)
    (photo : Option String) (now : Nat) (msgId : String) :
    ServerState × List Emit :=
  match mapGet s.activeUsers sid with
  | none => (s, [Emit.errorMsg sid "Not authenticated"])
  | some userInfo =>
    match mapGet s.sessions sessionId with
    | none => (s, [Emit.errorMsg sid "Session not found"])
    | some session =>
      if session.user1.socketId != sid && session.user2.socketId != sid then
        (s, [Emit.errorMsg sid "Not authorized for this session"])
      else if session.ended then
        (s, [Emit.errorMsg sid "Session has ended"])
      else
        let messageData : MessageData := {
          id := msgId,
          sessionId := sessionId,
          userId := userInfo.userId,
          username := userInfo.username,
          message := message,
          photo := photo,
          timestamp := now }
        let session1 :=
          { session with messages := session.messages ++ [messageData] }
        let partnerSocketId :=
          if session.user1.socketId == sid then session.user2.socketId
          else session.user1.socketId
        ({ s with sessions := mapSet s.sessions sessionId session1 },
         [Emit.adviceMessageOut partnerSocketId messageData,
          Emit.adviceMessageSent sid msgId])

/-- Handler for the `end-advice-session` event (server.js lines 639-670):
validates existence and participancy (no authentication check and no
already-ended check in the source), then unconditionally sets `ended`,
`endedAt`, `endedBy` and emits `session-ended` and `request-feedback` to
both participants. -/
def endAdviceSessionHandler (s : ServerState) (sid sessionId : String)
    (now : Nat) : ServerState × List Emit :=
  match mapGet s.sessions sessionId with
  | none => (s, [Emit.errorMsg sid "Session not found"])
  | some session =>
    if session.user1.socketId != sid && session.user2.socketId != sid then
      (s, [Emit.errorMsg sid "Not authorized"])
    else
      let session1 := { session with
        ended := true, endedAt := some now, endedBy := some sid }
      let partnerSocketId :=
        if session.user1.socketId == sid then session.user2.socketId
        else session.user1.socketId
      ({ s with sessions := mapSet s.sessions sessionId session1 },
       [Emit.sessionEnded partnerSocketId sessionId,
        Emit.sessionEnded sid sessionId,
        Emit.requestFeedback partnerSocketId sessionId,
        Emit.requestFeedback sid sessionId])

/-- Handler for the `submit-feedback` event (server.js lines 675-704):
validates session existence and authentication only (no participancy check
and no ended check in the source); stores the feedback under the submitter's
user id, overwriting any previous entry under that key. -/
def submitFeedbackHandler (s : ServerState) (sid sessionId : String)
    (rating : Nat) (comment : Option String) (now : Nat) :
    ServerState × List Emit :=
  match mapGet s.sessions sessionId with
  | none => (s, [Emit.errorMsg sid "Session not found"])
  | some session =>
    match mapGet s.activeUsers sid with
    | none => (s, [Emit.errorMsg sid "Not authenticated"])
    | some userInfo =>
      let fb : Feedback := { rating := rating, comment := comment,
                             timestamp := now }
      let session1 := { session with
        feedback := mapSet session.feedback userInfo.userId fb }
      ({ s with sessions := mapSet s.sessions sessionId session1 },
       [Emit.feedbackSubmitted sid sessionId])

/-- Per-room part of the disconnect handler (server.js lines 851-859):
membership entries of the disconnecting socket are deleted and the room is
notified once. -/
def disconnectRoom (sid username : String) (p : String × List String) :
    (String × List String) × List Emit :=
  if p.snd.contains sid then
    ((p.fst, p.snd.filter (fun m => m != sid)),
     [Emit.userLeftRoom p.fst username])
  else (p, [])

/-- Per-session part of the disconnect handler (server.js lines 862-875):
a non-ended session containing the socket is marked ended (`endedAt` set,
`endedBy` left unset) and the partner is notified once with
`partner-disconnected`; an already-ended session is left untouched. -/
def disconnectSession (sid : String) (now : Nat) (p : String × Session) :
    (String × Session) × List Emit :=
  if p.snd.user1.socketId == sid || p.snd.user2.socketId == sid then
    let partnerSocketId :=
      if p.snd.user1.socketId == sid then p.snd.user2.socketId
      else p.snd.user1.socketId
    if p.snd.ended then (p, [])
    else ((p.fst, { p.snd with ended := true, endedAt := some now }),
          [Emit.partnerDisconnected partnerSocketId p.fst])
  else (p, [])

/-- Handler for the `disconnect` event (server.js lines 844-885): reads the
user record, removes the socket from the advice queue, from every room
membership set, ends every non-ended session containing it, and finally
deletes both registry index entries when the socket was authenticated. -/
def disconnectHandler (s : ServerState) (sid : String) (now : Nat) :
    ServerState × List Emit :=
  let userInfo := mapGet s.activeUsers sid
  let q1 := removeFromQueue s.adviceQueue sid
  let username := match userInfo with
    | some u => u.username
    | none => "Anonymous"
  let roomStep := s.roomMembers.map (disconnectRoom sid username)
  let rooms1 := roomStep.map (fun r => r.fst)
  let roomEmits := (roomStep.map (fun r => r.snd)).flatten
  let sessStep := s.sessions.map (disconnectSession sid now)
  let sessions1 := sessStep.map (fun r => r.fst)
  let sessEmits := (sessStep.map (fun r => r.snd)).flatten
  let registry : List (String × UserInfo) × List (String × String) :=
    match userInfo with
    | some u => (mapErase s.activeUsers sid, mapErase s.userSockets u.userId)
    | none => (s.activeUsers, s.userSockets)
  ({ activeUsers := registry.fst,
     userSockets := registry.snd,
     roomMembers := rooms1,
     adviceQueue := q1,
     sessions := sessions1 },
   roomEmits ++ sessEmits)

/-- Inbound realtime events of the advice/chat core. -/
inductive Event where
  | authenticate (sid : String) (data : AuthPayload) (now : Nat)
  | joinRoom (sid room : String)
  | leaveRoom (sid room : String)
  | joinAdviceQueue (sid levelStr : String) (topic : Option String)
      (now : Nat) (newSessionId : String)
  | leaveAdviceQueue (sid : String)
  | adviceMessage (sid sessionId message : String) (photo : Option String)
      (now : Nat) (msgId : String)
  | endAdviceSession (sid sessionId : String) (now : Nat)
  | submitFeedback (sid sessionId : String) (rating : Nat)
      (comment : Option String) (now : Nat)
  | disconnect (sid : String) (now : Nat)
deriving DecidableEq, Repr

/-- Dispatch of one inbound event to its handler (the `io.on('connection')`
event registrations in server.js). -/
def step (s : ServerState) : Event → ServerState × List Emit
  | Event.authenticate sid data now => authenticateHandler s sid data now
  | Event.joinRoom sid room => joinRoomHandler s sid room
  | Event.leaveRoom sid room => leaveRoomHandler s sid room
  | Event.joinAdviceQueue sid levelStr topic now nsid =>
      joinAdviceQueueHandler s sid levelStr topic now nsid
  | Event.leaveAdviceQueue sid => leaveAdviceQueueHandler s sid
  | Event.adviceMessage sid sessionId message photo now msgId =>
      adviceMessageHandler s sid sessionId message photo now msgId
  | Event.endAdviceSession sid sessionId now =>
      endAdviceSessionHandler s sid sessionId now
  | Event.submitFeedback sid sessionId rating comment now =>
      submitFeedbackHandler s sid sessionId rating comment now
  | Event.disconnect sid now => disconnectHandler s sid now

/-- Server state at process start: every map and queue is empty. -/
def serverStart : ServerState :=
  { activeUsers := [], userSockets := [], roomMembers := [],
    adviceQueue := { beginner := [], intermediate := [], advanced := [] },
    sessions := [] }

/-- State reached after processing a sequence of inbound events from process
start (the single sequential socket.io event loop). -/
def runEvents (evs : List Event) : ServerState :=
  evs.foldl (fun s e => (step s e).fst) serverStart

/-- Spec-side preference table (spec section 4.3): candidate pool search
order per requester level, written from the spec's words for comparison
with the source-side `matchCandidates`. -/
def specPreferenceOrder : Level → List Level
  | Level.Beginner => [Level.Intermediate, Level.Advanced]
  | Level.Intermediate => [Level.Intermediate, Level.Advanced]
  | Level.Advanced => [Level.Beginner, Level.Intermediate, Level.Advanced]

/-- Spec-side chosen pool: the first non-empty pool in the preference order
(spec: "the search stops at the first non-empty pool in the order above —
it does not merge pools"). -/
def specChosenPool (q : AdviceQueue) (level : Level) : List QueueEntry :=
  match (specPreferenceOrder level).find? (fun l => !(queueOf q l).isEmpty) with
  | some l => queueOf q l
  | none => []

/-- Concrete queue entries and queue for the C1 witness: the Intermediate
and Advanced pools are both non-empty. -/
def c1EntryInter : QueueEntry :=
  { socketId := "s1", userId := "u1", username := "intermediate-user",
    level := Level.Intermediate, topic := none, joinedAt := 1 }

def c1EntryAdv : QueueEntry :=
  { socketId := "s2", userId := "u2", username := "advanced-user",
    level := Level.Advanced, topic := none, joinedAt := 2 }

def c1Queue : AdviceQueue :=
  { beginner := [], intermediate := [c1EntryInter], advanced := [c1EntryAdv] }

/-- Concrete entries and queue for the C2 witness. -/
def c2EntryA : QueueEntry :=
  { socketId := "sA", userId := "uA", username := "first-in",
    level := Level.Intermediate, topic := none, joinedAt := 10 }

def c2EntryB : QueueEntry :=
  { socketId := "sB", userId := "uB", username := "second-in",
    level := Level.Intermediate, topic := none, joinedAt := 20 }

def c2Queue : AdviceQueue :=
  { beginner := [], intermediate := [c2EntryA, c2EntryB], advanced := [] }

/-- Concrete entries and state for the C4 witness: an Intermediate
candidate X waits in the Intermediate pool and requester R has just been
pushed behind it. -/
def c4EntryX : QueueEntry :=
  { socketId := "sX", userId := "uX", username := "candidate-x",
    level := Level.Intermediate, topic := none, joinedAt := 1 }

def c4EntryR : QueueEntry :=
  { socketId := "sR", userId := "uR", username := "requester-r",
    level := Level.Intermediate, topic := none, joinedAt := 2 }

def c4State : ServerState :=
  { serverStart with
    adviceQueue :=
      { beginner := [], intermediate := [c4EntryX, c4EntryR], advanced := [] } }

/-- Concrete inputs for the C5 counterexample: an authenticated Intermediate
requester R joins with topic "Fish" while the Intermediate pool holds one
other entry X carrying no topic. -/
def c5UserR : UserInfo :=
  { userId := "uR", username := "requester-r", level := "Intermediate",
    tankType := none, tankSize := none, favoriteFish := [],
    favoritePlants := [], profilePicture := none, socketId := "sR",
    connectedAt := 0 }

def c5EntryX : QueueEntry :=
  { socketId := "sX", userId := "uX", username := "candidate-x",
    level := Level.Intermediate, topic := none, joinedAt := 1 }

def c5State : ServerState :=
  { serverStart with
    activeUsers := [("sR", c5UserR)],
    adviceQueue :=
      { beginner := [], intermediate := [c5EntryX], advanced := [] } }

/-- Concrete inputs for the C5 amended-claim witness, fallback side: a
Beginner requester R with topic "Fish" waits in the Beginner pool; the
chosen pool is the Intermediate pool, which holds only X (topic none), so R
is matched to the head X. -/
def c5aEntryR : QueueEntry :=
  { socketId := "sR", userId := "uR", username := "requester-r",
    level := Level.Beginner, topic := some "Fish", joinedAt := 2 }

def c5aState : ServerState :=
  { serverStart with
    adviceQueue :=
      { beginner := [c5aEntryR], intermediate := [c5EntryX], advanced := [] } }

/-- Concrete inputs for the C5 amended-claim witness, blocked side: the
Intermediate pool holds X (topic none) and then R's own entry with topic
"Fish". -/
def c5bEntryR : QueueEntry :=
  { socketId := "sR", userId := "uR", username := "requester-r",
    level := Level.Intermediate, topic := some "Fish", joinedAt := 2 }

def c5bState : ServerState :=
  { serverStart with
    adviceQueue :=
      { beginner := [], intermediate := [c5EntryX, c5bEntryR],
        advanced := [] } }

/-- Concrete inputs for the C6 witness: an ended session between sA and sB,
with participant sA authenticated and sending. -/
def c6UserA : UserInfo :=
  { userId := "uA", username := "user-a", level := "Beginner",
    tankType := none, tankSize := none, favoriteFish := [],
    favoritePlants := [], profilePicture := none, socketId := "sA",
    connectedAt := 0 }

def c6Session : Session :=
  { sessionId := "sessA",
    user1 := { socketId := "sA", userId := "uA", username := "user-a",
               level := Level.Beginner },
    user2 := { socketId := "sB", userId := "uB", username := "user-b",
               level := Level.Intermediate },
    topic := none, createdAt := 1, messages := [], ended := true,
    endedAt := some 5, endedBy := some "sB", feedback := [] }

def c6State : ServerState :=
  { serverStart with
    activeUsers := [("sA", c6UserA)],
    sessions := [("sessA", c6Session)] }

/-- Concrete inputs for the C7 counterexample: an ended session between sA
and sB, and an authenticated third connection sZ that is not a participant. -/
def c7UserZ : UserInfo :=
  { userId := "uZ", username := "user-z", level := "Advanced",
    tankType := none, tankSize := none, favoriteFish := [],
    favoritePlants := [], profilePicture := none, socketId := "sZ",
    connectedAt := 0 }

def c7Session : Session :=
  { sessionId := "sess1",
    user1 := { socketId := "sA", userId := "uA", username := "user-a",
               level := Level.Beginner },
    user2 := { socketId := "sB", userId := "uB", username := "user-b",
               level := Level.Intermediate },
    topic := none, createdAt := 1, messages := [], ended := true,
    endedAt := some 5, endedBy := some "sA", feedback := [] }

def c7State : ServerState :=
  { serverStart with
    activeUsers := [("sZ", c7UserZ)],
    sessions := [("sess1", c7Session)] }

/-- Concrete inputs for the C9 witness: sZ is authenticated but is NOT a
participant of the session between sA and sB, and the session already holds
older feedback under sZ's user id. -/
def c9UserZ : UserInfo :=
  { userId := "uZ", username := "user-z", level := "Advanced",
    tankType := none, tankSize := none, favoriteFish := [],
    favoritePlants := [], profilePicture := none, socketId := "sZ",
    connectedAt := 0 }

def c9Sess : Session :=
  { sessionId := "sess1",
    user1 := { socketId := "sA", userId := "uA", username := "user-a",
               level := Level.Beginner },
    user2 := { socketId := "sB", userId := "uB", username := "user-b",
               level := Level.Intermediate },
    topic := none, createdAt := 1, messages := [], ended := false,
    endedAt := none, endedBy := none,
    feedback := [("uZ", { rating := 1, comment := none, timestamp := 3 })] }

def c9State : ServerState :=
  { serverStart with
    activeUsers := [("sZ", c9UserZ)],
    sessions := [("sess1", c9Sess)] }

/-- Concrete inputs for the C10 witness: an already-ended session between
sA and sB, re-ended by participant sB. -/
def c10Sess : Session :=
  { sessionId := "sess1",
    user1 := { socketId := "sA", userId := "uA", username := "user-a",
               level := Level.Beginner },
    user2 := { socketId := "sB", userId := "uB", username := "user-b",
               level := Level.Intermediate },
    topic := none, createdAt := 1, messages := [], ended := true,
    endedAt := some 5, endedBy := some "sA", feedback := [] }

def c10State : ServerState :=
  { serverStart with sessions := [("sess1", c10Sess)] }

/-- Partner socket computation used by the session handlers
(`session.user1.socketId === socket.id ? session.user2.socketId :
session.user1.socketId`). -/
def partnerOf (sess : Session) (sid : String) : String :=
  if sess.user1.socketId == sid then sess.user2.socketId
  else sess.user1.socketId

/-- Username used in disconnect notifications
(`userInfo?.username || 'Anonymous'`). -/
def disconnectUsername (s : ServerState) (sid : String) : String :=
  match mapGet s.activeUsers sid with
  | some u => u.username
  | none => "Anonymous"

/-- Concrete inputs for the C8 witness: sD is authenticated, sits in the
Beginner queue and in room Reef, and has one active session with sE. -/
def c8UserD : UserInfo :=
  { userId := "uD", username := "user-d", level := "Beginner",
    tankType := none, tankSize := none, favoriteFish := [],
    favoritePlants := [], profilePicture := none, socketId := "sD",
    connectedAt := 0 }

def c8Sess : Session :=
  { sessionId := "sess1",
    user1 := { socketId := "sD", userId := "uD", username := "user-d",
               level := Level.Beginner },
    user2 := { socketId := "sE", userId := "uE", username := "user-e",
               level := Level.Advanced },
    topic := none, createdAt := 1, messages := [], ended := false,
    endedAt := none, endedBy := none, feedback := [] }

def c8Entry : QueueEntry :=
  { socketId := "sD", userId := "uD", username := "user-d",
    level := Level.Beginner, topic := none, joinedAt := 2 }

def c8State : ServerState :=
  { activeUsers := [("sD", c8UserD)],
    userSockets := [("uD", "sD")],
    roomMembers := [("Reef", ["sD", "sE"])],
    adviceQueue := { beginner := [c8Entry], intermediate := [], advanced := [] },
    sessions := [("sess1", c8Sess)] }

theorem countP_filter_socket (l : List QueueEntry) (c c' : String) :
    (l.filter (fun u => u.socketId != c')).countP (fun u => u.socketId == c) =
    if c = c' then 0 else l.countP (fun u => u.socketId == c) := by
  induction l with
  | nil => simp
  | cons a t ih =>
    by_cases h1 : a.socketId = c' <;> by_cases h2 : a.socketId = c <;>
      simp [List.filter_cons, List.countP_cons, h1, h2, ih] <;>
      split <;> simp_all

theorem any_filter_socket (l : List QueueEntry) (c c' : String) :
    (l.filter (fun u => u.socketId != c')).any (fun u => u.socketId == c) =
    if c = c' then false else l.any (fun u => u.socketId == c) := by
  by_cases hcc : c = c'
  · subst hcc
    have hall : ∀ a ∈ l.filter (fun u => u.socketId != c),
        ¬ (a.socketId == c) = true := by
      intro a ha
      simp only [List.mem_filter, bne_iff_ne, ne_eq] at ha
      simp [ha.2]
    simp [List.any_eq_false.mpr hall]
  · simp only [if_neg hcc]
    induction l with
    | nil => simp
    | cons a t ih =>
      by_cases h1 : a.socketId = c' <;>
        simp [List.filter_cons, h1, ih, Ne.symm hcc]

theorem countQ_removeFromQueue (q : AdviceQueue) (c c' : String) :
    countQ (removeFromQueue q c') c = if c = c' then 0 else countQ q c := by
  simp only [countQ, removeFromQueue, countP_filter_socket]
  split <;> rfl

theorem inQueue_removeFromQueue (q : AdviceQueue) (c c' : String) :
    inQueue (removeFromQueue q c') c = if c = c' then false else inQueue q c := by
  simp only [inQueue, removeFromQueue, any_filter_socket]
  split <;> simp

theorem countQ_pushQueue (q : AdviceQueue) (lvl : Level) (e : QueueEntry)
    (c : String) :
    countQ (pushQueue q lvl e) c =
    countQ q c + (if e.socketId = c then 1 else 0) := by
  by_cases h : e.socketId = c <;>
    cases lvl <;>
    simp [countQ, pushQueue, List.countP_append, List.countP_cons, h] <;>
    omega

theorem inQueue_pushQueue (q : AdviceQueue) (lvl : Level) (e : QueueEntry)
    (c : String) :
    inQueue (pushQueue q lvl e) c = (inQueue q c || (e.socketId == c)) := by
  by_cases h : e.socketId = c <;>
    cases lvl <;>
    simp [inQueue, pushQueue, h] <;>
    simp [Bool.or_assoc, Bool.or_comm, Bool.or_left_comm]

theorem matchCandidates_cases (q : AdviceQueue) (level : Level) :
    matchCandidates q level = q.beginner ∨
    matchCandidates q level = q.intermediate ∨
    matchCandidates q level = q.advanced ∨
    matchCandidates q level = [] := by
  cases level <;> simp only [matchCandidates] <;>
    (repeat' split) <;> simp

theorem findMatch_mem (q : AdviceQueue) (level : Level) (topic : Option String)
    (r : QueueEntry) (h : findMatch q level topic = some r) :
    r ∈ matchCandidates q level := by
  cases topic with
  | none =>
    simp only [findMatch] at h
    exact List.mem_of_mem_head? (Option.mem_def.mpr h)
  | some t =>
    simp only [findMatch] at h
    cases hf : (matchCandidates q level).find? (fun user => user.topic == some t) with
    | some m =>
      rw [hf] at h
      cases h
      exact List.mem_of_find?_eq_some hf
    | none =>
      rw [hf] at h
      exact List.mem_of_mem_head? (Option.mem_def.mpr h)

theorem inQueue_of_mem (q : AdviceQueue) (r : QueueEntry)
    (h : r ∈ q.beginner ∨ r ∈ q.intermediate ∨ r ∈ q.advanced) :
    inQueue q r.socketId = true := by
  simp only [inQueue, Bool.or_eq_true, List.any_eq_true]
  rcases h with h | h | h
  all_goals first
    | exact Or.inl (Or.inl ⟨r, h, by simp⟩)
    | exact Or.inl (Or.inr ⟨r, h, by simp⟩)
    | exact Or.inr ⟨r, h, by simp⟩

theorem findMatch_inQueue (q : AdviceQueue) (level : Level)
    (topic : Option String) (r : QueueEntry)
    (h : findMatch q level topic = some r) :
    inQueue q r.socketId = true := by
  have hm := findMatch_mem q level topic r h
  rcases matchCandidates_cases q level with hc | hc | hc | hc <;> rw [hc] at hm
  · exact inQueue_of_mem q r (Or.inl hm)
  · exact inQueue_of_mem q r (Or.inr (Or.inl hm))
  · exact inQueue_of_mem q r (Or.inr (Or.inr hm))
  · simp at hm

/-- C1: for every requester level, the Matcher searches candidate pools in
the fixed order of the preference table (Beginner: Intermediate then
Advanced; Intermediate: Intermediate then Advanced; Advanced: Beginner then
Intermediate then Advanced) and stops at the first non-empty pool without
merging pools; in particular, a Beginner requester with a non-empty
Intermediate pool (whether or not the Advanced pool is also non-empty) is
matched from the Intermediate pool, never from the Advanced pool. -/
theorem c1_level_preference_order (q : AdviceQueue) (level : Level) :
    matchCandidates q level = specChosenPool q level ∧
    (∀ topic : Option String, q.intermediate ≠ [] →
      ∃ r, findMatch q Level.Beginner topic = some r ∧ r ∈ q.intermediate) := by
  constructor
  · have e1 : q.beginner.isEmpty = decide (q.beginner = []) := by
      by_cases h : q.beginner = [] <;> simp [h]
    have e2 : q.intermediate.isEmpty = decide (q.intermediate = []) := by
      by_cases h : q.intermediate = [] <;> simp [h]
    have e3 : q.advanced.isEmpty = decide (q.advanced = []) := by
      by_cases h : q.advanced = [] <;> simp [h]
    cases level <;>
      simp only [matchCandidates, specChosenPool, specPreferenceOrder,
        List.find?_cons, queueOf, e1, e2, e3] <;>
      by_cases h1 : q.beginner = [] <;> by_cases h2 : q.intermediate = [] <;>
        by_cases h3 : q.advanced = [] <;>
        simp [h1, h2, h3, List.length_pos, gt_iff_lt]
  · intro topic hne
    have hc : matchCandidates q Level.Beginner = q.intermediate := by
      simp [matchCandidates, List.length_pos.mpr hne]
    obtain ⟨a, t, htl⟩ := List.exists_cons_of_ne_nil hne
    cases topic with
    | none =>
      refine ⟨a, ?_, by simp [htl]⟩
      simp [findMatch, hc, htl]
    | some tp =>
      cases hf : q.intermediate.find? (fun user => user.topic == some tp) with
      | some m =>
        refine ⟨m, ?_, List.mem_of_find?_eq_some hf⟩
        simp [findMatch, hc, hf]
      | none =>
        refine ⟨a, ?_, by simp [htl]⟩
        rw [htl] at hf
        simp [findMatch, hc, htl, hf]

/-- Witness for C1 at a concrete queue with both the Intermediate and the
Advanced pool non-empty. -/
theorem c1_witness :
    matchCandidates c1Queue Level.Beginner = specChosenPool c1Queue Level.Beginner ∧
    ∃ r, findMatch c1Queue Level.Beginner none = some r ∧ r ∈ c1Queue.intermediate :=
  ⟨(c1_level_preference_order c1Queue Level.Beginner).1,
   (c1_level_preference_order c1Queue Level.Beginner).2 none (by decide)⟩

/-- C2: matching is FIFO within the chosen pool: with the Beginner pool
empty and the Intermediate pool equal to [A, B] where A was enqueued
earlier than B and both entries are Intermediate, an Advanced requester
with no topic preference is matched to the head entry A, never to B. -/
theorem c2_fifo_within_pool (q : AdviceQueue) (A B : QueueEntry)
    (hb : q.beginner = []) (hi : q.intermediate = [A, B])
    (ht : A.joinedAt < B.joinedAt)
    (hA : A.level = Level.Intermediate) (hB : B.level = Level.Intermediate) :
    findMatch q Level.Advanced none = some A ∧
    findMatch q Level.Advanced none ≠ some B := by
  have hAB : A ≠ B := by
    intro h
    rw [h] at ht
    omega
  constructor
  · simp [findMatch, matchCandidates, hb, hi]
  · simp [findMatch, matchCandidates, hb, hi]
    exact hAB

/-- Witness for C2 at a concrete two-element Intermediate pool. -/
theorem c2_witness :
    findMatch c2Queue Level.Advanced none = some c2EntryA ∧
    findMatch c2Queue Level.Advanced none ≠ some c2EntryB :=
  c2_fifo_within_pool c2Queue c2EntryA c2EntryB (by decide) (by decide)
    (by decide) (by decide) (by decide)

theorem adviceQueue_authenticate (s : ServerState) (sid : String)
    (data : AuthPayload) (now : Nat) :
    ((authenticateHandler s sid data now).fst).adviceQueue = s.adviceQueue := rfl

theorem adviceQueue_joinRoom (s : ServerState) (sid room : String) :
    ((joinRoomHandler s sid room).fst).adviceQueue = s.adviceQueue := by
  simp only [joinRoomHandler]
  split <;> rfl

theorem adviceQueue_leaveRoom (s : ServerState) (sid room : String) :
    ((leaveRoomHandler s sid room).fst).adviceQueue = s.adviceQueue := rfl

theorem adviceQueue_adviceMessage (s : ServerState)
    (sid sessionId message : String) (photo : Option String) (now : Nat)
    (msgId : String) :
    ((adviceMessageHandler s sid sessionId message photo now msgId).fst).adviceQueue
      = s.adviceQueue := by
  simp only [adviceMessageHandler]
  repeat' split
  all_goals rfl

theorem adviceQueue_endSession (s : ServerState) (sid sessionId : String)
    (now : Nat) :
    ((endAdviceSessionHandler s sid sessionId now).fst).adviceQueue
      = s.adviceQueue := by
  simp only [endAdviceSessionHandler]
  repeat' split
  all_goals rfl

theorem adviceQueue_submitFeedback (s : ServerState) (sid sessionId : String)
    (rating : Nat) (comment : Option String) (now : Nat) :
    ((submitFeedbackHandler s sid sessionId rating comment now).fst).adviceQueue
      = s.adviceQueue := by
  simp only [submitFeedbackHandler]
  repeat' split
  all_goals rfl

theorem adviceQueue_disconnect (s : ServerState) (sid : String) (now : Nat) :
    ((disconnectHandler s sid now).fst).adviceQueue
      = removeFromQueue s.adviceQueue sid := rfl

theorem countQ_attemptMatch_le (s : ServerState) (sid : String) (level : Level)
    (topic : Option String) (now : Nat) (nsid : String) (c : String) :
    countQ ((attemptMatch s sid level topic now nsid).fst).adviceQueue c ≤
    countQ s.adviceQueue c := by
  simp only [attemptMatch]
  repeat' split
  all_goals simp [countQ_removeFromQueue]
  all_goals repeat' split
  all_goals omega

theorem countQ_joinAdviceQueue (s : ServerState) (sid levelStr : String)
    (topic : Option String) (now : Nat) (nsid : String) (c : String)
    (h : countQ s.adviceQueue c ≤ 1) :
    countQ ((joinAdviceQueueHandler s sid levelStr topic now nsid).fst).adviceQueue c
      ≤ 1 := by
  simp only [joinAdviceQueueHandler]
  cases hga : mapGet s.activeUsers sid with
  | none => simpa using h
  | some userInfo =>
    cases hpl : parseLevel levelStr with
    | none => simpa using h
    | some level =>
      simp only []
      refine le_trans (countQ_attemptMatch_le _ sid level topic now nsid c) ?_
      rw [countQ_pushQueue, countQ_removeFromQueue]
      by_cases hc : c = sid
      · subst hc
        simp
      · have hcs : ¬ (sid = c) := fun hx => hc hx.symm
        simp only [if_neg hc]
        simp [hcs]
        exact h

theorem countQ_step_le_one (s : ServerState) (e : Event) (c : String)
    (h : countQ s.adviceQueue c ≤ 1) :
    countQ ((step s e).fst).adviceQueue c ≤ 1 := by
  cases e with
  | authenticate sid data now =>
    rw [step, adviceQueue_authenticate]
    exact h
  | joinRoom sid room =>
    rw [step, adviceQueue_joinRoom]
    exact h
  | leaveRoom sid room =>
    rw [step, adviceQueue_leaveRoom]
    exact h
  | joinAdviceQueue sid levelStr topic now nsid =>
    exact countQ_joinAdviceQueue s sid levelStr topic now nsid c h
  | leaveAdviceQueue sid =>
    rw [step]
    simp only [leaveAdviceQueueHandler, countQ_removeFromQueue]
    split <;> omega
  | adviceMessage sid sessionId message photo now msgId =>
    rw [step, adviceQueue_adviceMessage]
    exact h
  | endAdviceSession sid sessionId now =>
    rw [step, adviceQueue_endSession]
    exact h
  | submitFeedback sid sessionId rating comment now =>
    rw [step, adviceQueue_submitFeedback]
    exact h
  | disconnect sid now =>
    rw [step, adviceQueue_disconnect, countQ_removeFromQueue]
    split <;> omega

theorem countQ_foldl_le_one (evs : List Event) :
    ∀ s : ServerState, (∀ c, countQ s.adviceQueue c ≤ 1) →
      ∀ c, countQ ((evs.foldl (fun s e => (step s e).fst) s)).adviceQueue c ≤ 1 := by
  induction evs with
  | nil =>
    intro s h c
    exact h c
  | cons e t ih =>
    intro s h c
    exact ih ((step s e).fst) (fun c2 => countQ_step_le_one s e c2 (h c2)) c

/-- C3: queue exclusivity invariant: for every connection C, after any
sequence of inbound events (authenticate, join/leave room,
join-advice-queue with its immediate match attempt, leave-advice-queue,
advice messages, session end, feedback, disconnect) processed from process
start, C's socket id occurs in at most one of the three level queues and at
most once in that queue — re-joining replaces rather than duplicates the
entry, because the total number of queue entries carrying C stays at most
one. -/
theorem c3_queue_exclusivity (evs : List Event) (c : String) :
    countQ (runEvents evs).adviceQueue c ≤ 1 := by
  refine countQ_foldl_le_one evs serverStart ?_ c
  intro c2
  simp [countQ, serverStart]

theorem mapGet_cons {α : Type} (p : String × α) (l : List (String × α))
    (k : String) :
    mapGet (p :: l) k = if p.fst == k then some p.snd else mapGet l k := by
  by_cases h : p.fst = k <;> simp [mapGet, List.find?_cons, h]

theorem mapGet_mapSet_self {α : Type} (l : List (String × α)) (k : String)
    (v : α) :
    mapGet (mapSet l k v) k = some v := by
  induction l with
  | nil => simp [mapSet, mapGet]
  | cons p rest ih =>
    by_cases h : p.fst = k
    · simp [mapSet, h, mapGet_cons]
    · simp [mapSet, h, mapGet_cons, ih]

/-- C4: atomic removal on match: whenever the Matcher pairs the requester
with a candidate (a queue entry for the requester exists, `findMatch`
returns a candidate, and the candidate is not the requester itself), both
parties are removed from all three queues and the session is created with
exactly those two participants; moreover a subsequent `join-advice-queue`
style match attempt by any third connection (modelled by pushing the third
entry after the unconditional dequeue of its own socket, then running
`findMatch`) can never return an entry carrying either matched socket. -/
theorem c4_atomic_removal (s : ServerState) (sid : String) (level : Level)
    (topic : Option String) (now : Nat) (nsid : String) (qe m : QueueEntry)
    (hqe : (queueOf s.adviceQueue level).find? (fun u => u.socketId == sid)
      = some qe)
    (hm : findMatch s.adviceQueue level topic = some m)
    (hne : m.socketId ≠ sid) :
    inQueue ((attemptMatch s sid level topic now nsid).fst).adviceQueue sid
        = false ∧
    inQueue ((attemptMatch s sid level topic now nsid).fst).adviceQueue
        m.socketId = false ∧
    (∃ sess, mapGet ((attemptMatch s sid level topic now
        nsid).fst).sessions nsid = some sess ∧
      sess.user1.socketId = sid ∧ sess.user1.userId = qe.userId ∧
      sess.user2.socketId = m.socketId ∧ sess.user2.userId = m.userId ∧
      sess.ended = false) ∧
    (∀ (e : QueueEntry) (lvl2 : Level) (top2 : Option String) (r : QueueEntry),
      e.socketId ≠ sid → e.socketId ≠ m.socketId →
      findMatch (pushQueue (removeFromQueue
          ((attemptMatch s sid level topic now nsid).fst).adviceQueue
          e.socketId) lvl2 e) lvl2 top2 = some r →
      r.socketId ≠ sid ∧ r.socketId ≠ m.socketId) := by
  have hb : (m.socketId != sid) = true := bne_iff_ne.mpr hne
  simp only [attemptMatch, hqe, hm, hb, if_true]
  have hns : sid ≠ m.socketId := fun hx => hne hx.symm
  have hA : inQueue (removeFromQueue (removeFromQueue s.adviceQueue sid)
      m.socketId) sid = false := by
    rw [inQueue_removeFromQueue, inQueue_removeFromQueue]
    simp [hns]
  have hB : inQueue (removeFromQueue (removeFromQueue s.adviceQueue sid)
      m.socketId) m.socketId = false := by
    rw [inQueue_removeFromQueue]
    simp
  refine ⟨hA, hB, ⟨_, mapGet_mapSet_self _ _ _, rfl, rfl, rfl, rfl, rfl⟩, ?_⟩
  intro e lvl2 top2 r he1 he2 hr
  have hq := findMatch_inQueue _ lvl2 top2 r hr
  rw [inQueue_pushQueue, inQueue_removeFromQueue] at hq
  constructor
  · intro hrs
    rw [hrs] at hq
    by_cases hse : sid = e.socketId
    · exact he1 hse.symm
    · rw [if_neg hse, hA] at hq
      simp only [Bool.false_or] at hq
      exact he1 (eq_of_beq hq)
  · intro hrs
    rw [hrs] at hq
    by_cases hse : m.socketId = e.socketId
    · exact he2 hse.symm
    · rw [if_neg hse, hB] at hq
      simp only [Bool.false_or] at hq
      exact he2 (eq_of_beq hq)

/-- Witness for C4: at the concrete state, after the match neither party
remains in any queue. -/
theorem c4_witness :
    inQueue ((attemptMatch c4State "sR" Level.Intermediate none 5
      "sess1").fst).adviceQueue "sR" = false ∧
    inQueue ((attemptMatch c4State "sR" Level.Intermediate none 5
      "sess1").fst).adviceQueue "sX" = false := by
  have h := c4_atomic_removal c4State "sR" Level.Intermediate none 5 "sess1"
    c4EntryR c4EntryX (by decide) (by decide) (by decide)
  exact ⟨h.1, h.2.1⟩

/-- Counterexample to C5: requester R (Intermediate) joins with topic
"Fish"; the chosen pool (Intermediate) then holds the other entry X, whose
topic differs from the requested one, so the claim demands a fallback match
with the head X. The handler instead creates no session and emits only the
`queued` event: R's own freshly pushed entry is the first (and only) topic
match, `findMatch` returns it, and `attemptMatch` discards the self-match
without any fallback, leaving both entries queued. -/
theorem c5_counterexample :
    ((joinAdviceQueueHandler c5State "sR" "Intermediate" (some "Fish") 2
        "sess1").fst).sessions = [] ∧
    (joinAdviceQueueHandler c5State "sR" "Intermediate" (some "Fish") 2
        "sess1").snd =
      [Emit.queued "sR" Level.Intermediate (some "Fish") 2] ∧
    ((joinAdviceQueueHandler c5State "sR" "Intermediate" (some "Fish") 2
        "sess1").fst).adviceQueue.intermediate =
      [c5EntryX,
       { socketId := "sR", userId := "uR", username := "requester-r",
         level := Level.Intermediate, topic := some "Fish", joinedAt := 2 }] := by
  refine ⟨?_, ?_, ?_⟩ <;> decide

/-- C5 as amended: within the chosen pool, a requested topic is matched by a
linear scan over the pool including the requester's own entry. The fallback
to the pool's head entry happens exactly when no pool entry (the requester's
included) carries the requested topic; if the head then differs from the
requester, a match with the head is made. When instead the first entry
carrying the requested topic is the requester's own entry (e.g. same-level
matching with no other entry carrying the topic), `findMatch` returns the
requester's own entry and `attemptMatch` treats the self-match as no-match
without falling back to the head, so no match is made at all. -/
theorem c5_amended_topic_fallback (s : ServerState) (sid : String)
    (level : Level) (t : String) (now : Nat) (nsid : String)
    (qe h : QueueEntry)
    (hqe : (queueOf s.adviceQueue level).find? (fun u => u.socketId == sid)
      = some qe) :
    ((∀ u ∈ matchCandidates s.adviceQueue level, u.topic ≠ some t) →
      (matchCandidates s.adviceQueue level).head? = some h →
      h.socketId ≠ sid →
      findMatch s.adviceQueue level (some t) = some h ∧
      ∃ sess, mapGet ((attemptMatch s sid level (some t) now
          nsid).fst).sessions nsid = some sess ∧
        sess.user1.socketId = sid ∧ sess.user2.socketId = h.socketId) ∧
    (∀ rf : QueueEntry,
      (matchCandidates s.adviceQueue level).find?
        (fun u => u.topic == some t) = some rf →
      rf.socketId = sid →
      attemptMatch s sid level (some t) now nsid = (s, [])) := by
  constructor
  · intro hno hh hns
    have hfn : (matchCandidates s.adviceQueue level).find?
        (fun u => u.topic == some t) = none := by
      rw [List.find?_eq_none]
      intro x hx
      simp [hno x hx]
    have hfm : findMatch s.adviceQueue level (some t) = some h := by
      simp [findMatch, hfn, hh]
    refine ⟨hfm, ?_⟩
    have hb : (h.socketId != sid) = true := bne_iff_ne.mpr hns
    simp only [attemptMatch, hqe, hfm, hb, if_true]
    exact ⟨_, mapGet_mapSet_self _ _ _, rfl, rfl⟩
  · intro rf hf hrf
    have hfm : findMatch s.adviceQueue level (some t) = some rf := by
      simp [findMatch, hf]
    have hb : (rf.socketId != sid) = false := by simp [hrf]
    simp only [attemptMatch, hqe, hfm, hb, Bool.false_eq_true, if_false]

/-- Witness for the amended C5 on both sides: the fallback match with the
head X for a Beginner requester, and the no-match outcome when the
requester's own entry is the topic match in its own pool. -/
theorem c5_amended_witness :
    (findMatch c5aState.adviceQueue Level.Beginner (some "Fish") =
        some c5EntryX ∧
      ∃ sess, mapGet ((attemptMatch c5aState "sR" Level.Beginner
          (some "Fish") 7 "sess2").fst).sessions "sess2" = some sess ∧
        sess.user1.socketId = "sR" ∧
        sess.user2.socketId = c5EntryX.socketId) ∧
    attemptMatch c5bState "sR" Level.Intermediate (some "Fish") 8 "sess3" =
      (c5bState, []) := by
  constructor
  · exact (c5_amended_topic_fallback c5aState "sR" Level.Beginner "Fish" 7
      "sess2" c5aEntryR c5EntryX (by decide)).1 (by decide) (by decide)
      (by decide)
  · exact (c5_amended_topic_fallback c5bState "sR" Level.Intermediate "Fish"
      8 "sess3" c5bEntryR c5EntryX (by decide)).2 c5bEntryR (by decide)
      (by decide)

/-- C6: ended-session rejection with unchanged state: for every session
whose ended flag is true, an `advice-message` from either participant
(an authenticated sender whose socket is one of the two participants)
returns exactly the SessionEnded error, leaves the whole server state
unchanged (so nothing is appended to the session's message log), and emits
nothing to the partner. -/
theorem c6_ended_session_rejection (s : ServerState)
    (sid sessionId message : String) (photo : Option String) (now : Nat)
    (msgId : String) (u : UserInfo) (sess : Session)
    (hauth : mapGet s.activeUsers sid = some u)
    (hsess : mapGet s.sessions sessionId = some sess)
    (hended : sess.ended = true)
    (hpart : sess.user1.socketId = sid ∨ sess.user2.socketId = sid) :
    adviceMessageHandler s sid sessionId message photo now msgId =
      (s, [Emit.errorMsg sid "Session has ended"]) := by
  have hcond : (sess.user1.socketId != sid && sess.user2.socketId != sid)
      = false := by
    rcases hpart with h | h <;> simp [h]
  simp [adviceMessageHandler, hauth, hsess, hcond, hended]

/-- Witness for C6 at a concrete ended session. -/
theorem c6_witness :
    adviceMessageHandler c6State "sA" "sessA" "hi" none 11 "m2" =
      (c6State, [Emit.errorMsg "sA" "Session has ended"]) :=
  c6_ended_session_rejection c6State "sA" "sessA" "hi" none 11 "m2"
    c6UserA c6Session (by decide) (by decide) (by decide)
    (Or.inl (by decide))

/-- Counterexample to C7: the session exists and is ended, the sender sZ is
authenticated and is not a participant, yet the handler answers with the
Unauthorized error, not the SessionEnded error — the source checks
participancy before the ended flag, the opposite of the claimed order. -/
theorem c7_counterexample :
    c7Session.ended = true ∧
    (adviceMessageHandler c7State "sZ" "sess1" "hello" none 10 "m1").snd =
      [Emit.errorMsg "sZ" "Not authorized for this session"] ∧
    (adviceMessageHandler c7State "sZ" "sess1" "hello" none 10 "m1").snd ≠
      [Emit.errorMsg "sZ" "Session has ended"] := by
  refine ⟨?_, ?_, ?_⟩ <;> decide

/-- C7 as amended: the source validates an `advice-message` in the order
(0) sender authenticated, (1) session exists else SessionNotFound,
(2) sender is one of the two participants else Unauthorized,
(3) session not ended else SessionEnded; in particular, for every existing
ended session, an authenticated sender who is not a participant receives
the Unauthorized error, not the SessionEnded error. -/
theorem c7_amended_validation_order (s : ServerState)
    (sid sessionId message : String) (photo : Option String) (now : Nat)
    (msgId : String) (u : UserInfo)
    (hauth : mapGet s.activeUsers sid = some u) :
    (mapGet s.sessions sessionId = none →
      adviceMessageHandler s sid sessionId message photo now msgId =
        (s, [Emit.errorMsg sid "Session not found"])) ∧
    (∀ sess : Session, mapGet s.sessions sessionId = some sess →
      sess.user1.socketId ≠ sid → sess.user2.socketId ≠ sid →
      adviceMessageHandler s sid sessionId message photo now msgId =
        (s, [Emit.errorMsg sid "Not authorized for this session"])) ∧
    (∀ sess : Session, mapGet s.sessions sessionId = some sess →
      (sess.user1.socketId = sid ∨ sess.user2.socketId = sid) →
      sess.ended = true →
      adviceMessageHandler s sid sessionId message photo now msgId =
        (s, [Emit.errorMsg sid "Session has ended"])) := by
  refine ⟨?_, ?_, ?_⟩
  · intro hn
    simp [adviceMessageHandler, hauth, hn]
  · intro sess hs h1 h2
    simp [adviceMessageHandler, hauth, hs, h1, h2]
  · intro sess hs hpart hended
    have hcond : (sess.user1.socketId != sid && sess.user2.socketId != sid)
        = false := by
      rcases hpart with h | h <;> simp [h]
    simp [adviceMessageHandler, hauth, hs, hcond, hended]

/-- Witness for the amended C7: the non-participant sender on the concrete
ended session receives the Unauthorized error. -/
theorem c7_amended_witness :
    adviceMessageHandler c7State "sZ" "sess1" "hello" none 10 "m1" =
      (c7State, [Emit.errorMsg "sZ" "Not authorized for this session"]) :=
  (c7_amended_validation_order c7State "sZ" "sess1" "hello" none 10 "m1"
    c7UserZ (by decide)).2.1 c7Session (by decide) (by decide) (by decide)

/-- C9: feedback has no participant check: for every existing session and
every authenticated connection, `submit-feedback` succeeds with the
`feedbackSubmitted` emit (in particular it never returns an Unauthorized
error, even when the submitter is not one of the two participants), storing
the feedback in the session's feedback map under the submitter's own user
id and overwriting any prior entry under that key; an error is returned
only when the session id is unknown or the connection is unauthenticated. -/
theorem c9_feedback_no_participant_check (s : ServerState)
    (sid sessionId : String) (rating : Nat) (comment : Option String)
    (now : Nat) :
    (∀ (sess : Session) (u : UserInfo),
      mapGet s.sessions sessionId = some sess →
      mapGet s.activeUsers sid = some u →
      submitFeedbackHandler s sid sessionId rating comment now =
        ({ s with sessions := (mapSet s.sessions sessionId
            { sess with feedback := (mapSet sess.feedback u.userId
                { rating := rating, comment := comment,
                  timestamp := now }) }) },
         [Emit.feedbackSubmitted sid sessionId]) ∧
      mapGet (mapSet sess.feedback u.userId
          { rating := rating, comment := comment, timestamp := now }) u.userId
        = some { rating := rating, comment := comment, timestamp := now }) ∧
    (mapGet s.sessions sessionId = none →
      submitFeedbackHandler s sid sessionId rating comment now =
        (s, [Emit.errorMsg sid "Session not found"])) ∧
    (∀ sess : Session, mapGet s.sessions sessionId = some sess →
      mapGet s.activeUsers sid = none →
      submitFeedbackHandler s sid sessionId rating comment now =
        (s, [Emit.errorMsg sid "Not authenticated"])) := by
  refine ⟨?_, ?_, ?_⟩
  · intro sess u hs hu
    constructor
    · simp [submitFeedbackHandler, hs, hu]
    · exact mapGet_mapSet_self _ _ _
  · intro hn
    simp [submitFeedbackHandler, hn]
  · intro sess hs hn
    simp [submitFeedbackHandler, hs, hn]

/-- Witness for C9: the non-participant submitter's feedback is accepted
and overwrites the prior entry under the same user id. -/
theorem c9_witness :
    submitFeedbackHandler c9State "sZ" "sess1" 5 (some "great") 20 =
      ({ c9State with sessions := (mapSet c9State.sessions "sess1"
          { c9Sess with feedback := (mapSet c9Sess.feedback "uZ"
              { rating := 5, comment := some "great",
                timestamp := 20 }) }) },
       [Emit.feedbackSubmitted "sZ" "sess1"]) ∧
    mapGet (mapSet c9Sess.feedback "uZ"
        { rating := 5, comment := some "great", timestamp := 20 }) "uZ" =
      some { rating := 5, comment := some "great", timestamp := 20 } :=
  (c9_feedback_no_participant_check c9State "sZ" "sess1" 5 (some "great")
    20).1 c9Sess c9UserZ (by decide) (by decide)

/-- C10: re-ending is not rejected: for every already-ended session, a
subsequent `end-advice-session` from either participant does not return any
error (in particular no AlreadyEnded error); it succeeds again, overwriting
the session's end timestamp and ending party with the new values, and
re-emits `session-ended` and `request-feedback` to both participants. -/
theorem c10_reend_not_rejected (s : ServerState) (sid sessionId : String)
    (now : Nat) (sess : Session)
    (hsess : mapGet s.sessions sessionId = some sess)
    (hended : sess.ended = true)
    (hpart : sess.user1.socketId = sid ∨ sess.user2.socketId = sid) :
    endAdviceSessionHandler s sid sessionId now =
      ({ s with sessions := (mapSet s.sessions sessionId
          { sess with ended := true, endedAt := some now,
                      endedBy := some sid }) },
       [Emit.sessionEnded (if sess.user1.socketId == sid
          then sess.user2.socketId else sess.user1.socketId) sessionId,
        Emit.sessionEnded sid sessionId,
        Emit.requestFeedback (if sess.user1.socketId == sid
          then sess.user2.socketId else sess.user1.socketId) sessionId,
        Emit.requestFeedback sid sessionId]) := by
  have hcond : (sess.user1.socketId != sid && sess.user2.socketId != sid)
      = false := by
    rcases hpart with h | h <;> simp [h]
  simp [endAdviceSessionHandler, hsess, hcond]

/-- Witness for C10: re-ending the concrete ended session succeeds,
overwriting endedAt and endedBy and re-emitting to both participants. -/
theorem c10_witness :
    endAdviceSessionHandler c10State "sB" "sess1" 9 =
      ({ c10State with sessions := (mapSet c10State.sessions "sess1"
          { c10Sess with ended := true, endedAt := some 9,
                         endedBy := some "sB" }) },
       [Emit.sessionEnded "sA" "sess1",
        Emit.sessionEnded "sB" "sess1",
        Emit.requestFeedback "sA" "sess1",
        Emit.requestFeedback "sB" "sess1"]) :=
  c10_reend_not_rejected c10State "sB" "sess1" 9 c10Sess (by decide)
    (by decide) (Or.inr (by decide))

theorem disconnectSession_key (sid : String) (now : Nat)
    (p : String × Session) :
    ((disconnectSession sid now p).fst).fst = p.fst := by
  simp only [disconnectSession]
  repeat' split
  all_goals rfl

theorem disconnectRoom_key (sid username : String)
    (p : String × List String) :
    ((disconnectRoom sid username p).fst).fst = p.fst := by
  simp only [disconnectRoom]
  split
  all_goals rfl

theorem mapGet_map_keyed {α β : Type} (f : String × α → String × β)
    (hf : ∀ p, (f p).fst = p.fst) (l : List (String × α)) (k : String) :
    mapGet (l.map f) k =
      (l.find? (fun p => p.fst == k)).map (fun p => (f p).snd) := by
  induction l with
  | nil => simp [mapGet]
  | cons p rest ih =>
    by_cases h : p.fst = k
    · simp [List.map_cons, mapGet_cons, hf, h, List.find?_cons]
    · simp [List.map_cons, mapGet_cons, hf, h, List.find?_cons, ih]

theorem mapGet_find? {α : Type} (l : List (String × α)) (k : String) (v : α)
    (h : mapGet l k = some v) :
    ∃ p, l.find? (fun q => q.fst == k) = some p ∧ p.snd = v := by
  simp only [mapGet] at h
  cases hf : l.find? (fun q => q.fst == k) with
  | none => rw [hf] at h; cases h
  | some p =>
    rw [hf] at h
    cases h
    exact ⟨p, rfl, rfl⟩

theorem mapGet_mapErase_self {α : Type} (l : List (String × α))
    (k : String) :
    mapGet (mapErase l k) k = none := by
  simp only [mapGet, mapErase]
  cases hf : (l.filter (fun p => p.fst != k)).find? (fun p => p.fst == k) with
  | none => rfl
  | some p =>
    have hp := List.find?_some hf
    have hmem := List.mem_of_find?_eq_some hf
    simp only [List.mem_filter, bne_iff_ne, ne_eq] at hmem
    simp only [beq_iff_eq] at hp
    exact absurd hp hmem.2

theorem disconnectSession_ended (sid : String) (now : Nat)
    (p : String × Session)
    (hp : p.snd.user1.socketId = sid ∨ p.snd.user2.socketId = sid) :
    ((disconnectSession sid now p).fst).snd.ended = true := by
  have hcond : (p.snd.user1.socketId == sid || p.snd.user2.socketId == sid)
      = true := by
    rcases hp with h | h <;> simp [h]
  by_cases he : p.snd.ended <;> simp [disconnectSession, hcond, he]

theorem disconnectSession_emits_active (sid : String) (now : Nat)
    (p : String × Session)
    (hp : p.snd.user1.socketId = sid ∨ p.snd.user2.socketId = sid)
    (he : p.snd.ended = false) :
    (disconnectSession sid now p).snd =
      [Emit.partnerDisconnected (partnerOf p.snd sid) p.fst] := by
  have hcond : (p.snd.user1.socketId == sid || p.snd.user2.socketId == sid)
      = true := by
    rcases hp with h | h <;> simp [h]
  simp [disconnectSession, partnerOf, hcond, he]

theorem disconnectSession_emits_shape (sid : String) (now : Nat)
    (p : String × Session) :
    (disconnectSession sid now p).snd = [] ∨
    ∃ partner, (disconnectSession sid now p).snd =
      [Emit.partnerDisconnected partner p.fst] := by
  simp only [disconnectSession]
  repeat' split
  all_goals simp

theorem disconnectRoom_emits_shape (sid username : String)
    (p : String × List String) :
    (disconnectRoom sid username p).snd = [] ∨
    (disconnectRoom sid username p).snd =
      [Emit.userLeftRoom p.fst username] := by
  simp only [disconnectRoom]
  split <;> simp

theorem disconnectRoom_no_sid (sid username : String)
    (p : String × List String) :
    sid ∉ ((disconnectRoom sid username p).fst).snd := by
  simp only [disconnectRoom]
  split
  · intro hmem
    have hx := (List.mem_filter.mp hmem).2
    simp at hx
  · intro hmem
    rename_i hc
    apply hc
    rw [List.contains_eq_any_beq, List.any_eq_true]
    exact ⟨sid, hmem, by simp⟩

theorem disconnect_sessions_eq (s : ServerState) (sid : String) (now : Nat) :
    ((disconnectHandler s sid now).fst).sessions =
      s.sessions.map (fun p => (disconnectSession sid now p).fst) := by
  simp [disconnectHandler, Function.comp]

theorem disconnect_rooms_eq (s : ServerState) (sid : String) (now : Nat) :
    ((disconnectHandler s sid now).fst).roomMembers =
      s.roomMembers.map (fun p =>
        (disconnectRoom sid (disconnectUsername s sid) p).fst) := by
  cases h : mapGet s.activeUsers sid <;>
    simp [disconnectHandler, disconnectUsername, h, Function.comp]

theorem disconnect_emits_eq (s : ServerState) (sid : String) (now : Nat) :
    (disconnectHandler s sid now).snd =
      (s.roomMembers.map (fun p =>
        (disconnectRoom sid (disconnectUsername s sid) p).snd)).flatten ++
      (s.sessions.map (fun p => (disconnectSession sid now p).snd)).flatten := by
  cases h : mapGet s.activeUsers sid <;>
    simp [disconnectHandler, disconnectUsername, h, Function.comp,
      Function.comp_def]

theorem roomEmits_count_pd (sid username : String)
    (rl : List (String × List String)) (target k : String) :
    ((rl.map (fun p => (disconnectRoom sid username p).snd)).flatten).countP
      (fun em => em == Emit.partnerDisconnected target k) = 0 := by
  rw [List.countP_eq_zero]
  intro em hem
  rw [List.mem_flatten] at hem
  obtain ⟨l, hl, heml⟩ := hem
  rw [List.mem_map] at hl
  obtain ⟨p, hp, hpe⟩ := hl
  subst hpe
  rcases disconnectRoom_emits_shape sid username p with h | h <;> rw [h] at heml
  · cases heml
  · simp only [List.mem_singleton] at heml
    subst heml
    simp

theorem sessEmits_count_zero (sid : String) (now : Nat)
    (l : List (String × Session)) (k target : String)
    (hk : k ∉ l.map Prod.fst) :
    ((l.map (fun p => (disconnectSession sid now p).snd)).flatten).countP
      (fun em => em == Emit.partnerDisconnected target k) = 0 := by
  induction l with
  | nil => simp
  | cons p rest ih =>
    simp only [List.map_cons, List.flatten_cons, List.countP_append]
    simp only [List.map_cons, List.mem_cons, not_or] at hk
    have hpk : p.fst ≠ k := fun h => hk.1 h.symm
    have h0 : ((disconnectSession sid now p).snd).countP
        (fun em => em == Emit.partnerDisconnected target k) = 0 := by
      rcases disconnectSession_emits_shape sid now p with h | ⟨partner, h⟩ <;>
        rw [h]
      · simp
      · simp [List.countP_cons, hpk]
    rw [h0, ih hk.2]

theorem sessEmits_count_one (sid : String) (now : Nat)
    (l : List (String × Session)) (k : String) (sess : Session)
    (hnd : (l.map Prod.fst).Nodup)
    (hget : mapGet l k = some sess)
    (hp : sess.user1.socketId = sid ∨ sess.user2.socketId = sid)
    (he : sess.ended = false) :
    ((l.map (fun p => (disconnectSession sid now p).snd)).flatten).countP
      (fun em => em == Emit.partnerDisconnected (partnerOf sess sid) k) = 1 := by
  induction l with
  | nil => simp [mapGet] at hget
  | cons p rest ih =>
    simp only [List.map_cons, List.flatten_cons, List.countP_append]
    simp only [List.map_cons, List.nodup_cons] at hnd
    rw [mapGet_cons] at hget
    by_cases hpk : p.fst = k
    · rw [if_pos (by simp [hpk])] at hget
      have hsess : p.snd = sess := by
        cases hget
        rfl
      have hhead : (disconnectSession sid now p).snd =
          [Emit.partnerDisconnected (partnerOf p.snd sid) p.fst] :=
        disconnectSession_emits_active sid now p
          (by rw [hsess]; exact hp) (by rw [hsess]; exact he)
      rw [hhead]
      have hrest : k ∉ rest.map Prod.fst := by
        rw [hpk] at hnd
        exact hnd.1
      rw [sessEmits_count_zero sid now rest k (partnerOf sess sid) hrest]
      simp [List.countP_cons, hsess, hpk]
    · rw [if_neg (by simp [hpk])] at hget
      have h0 : ((disconnectSession sid now p).snd).countP
          (fun em => em == Emit.partnerDisconnected (partnerOf sess sid) k)
          = 0 := by
        rcases disconnectSession_emits_shape sid now p with h | ⟨partner, h⟩ <;>
          rw [h]
        · simp
        · simp [List.countP_cons, hpk]
      rw [h0, ih hnd.2 hget]

/-- C8: disconnect cascade: when a connection disconnects, every non-ended
session containing it as a participant becomes ended, the partner of each
such session receives exactly one `partner-disconnected` notification for
it and no `request-feedback` prompt is emitted at all; the disconnecting
connection's entries are removed from all three advice queues and from
every room membership set, and its registry entries (the connection-id
index and the user-id index entry for its user id) are purged. The session
map is assumed duplicate-key free, as JS `Map` keys are. -/
theorem c8_disconnect_cascade (s : ServerState) (sid : String) (now : Nat)
    (hnd : (s.sessions.map Prod.fst).Nodup) :
    (∀ (k : String) (sess : Session), mapGet s.sessions k = some sess →
      (sess.user1.socketId = sid ∨ sess.user2.socketId = sid) →
      ∃ sess2 : Session,
        mapGet ((disconnectHandler s sid now).fst).sessions k = some sess2 ∧
        sess2.ended = true) ∧
    (∀ (k : String) (sess : Session), mapGet s.sessions k = some sess →
      (sess.user1.socketId = sid ∨ sess.user2.socketId = sid) →
      sess.ended = false →
      ((disconnectHandler s sid now).snd).countP
        (fun em => em == Emit.partnerDisconnected (partnerOf sess sid) k)
        = 1) ∧
    (∀ em ∈ (disconnectHandler s sid now).snd,
      ∀ (dest k : String), em ≠ Emit.requestFeedback dest k) ∧
    inQueue ((disconnectHandler s sid now).fst).adviceQueue sid = false ∧
    (∀ (room : String) (members : List String),
      mapGet ((disconnectHandler s sid now).fst).roomMembers room
        = some members → sid ∉ members) ∧
    mapGet ((disconnectHandler s sid now).fst).activeUsers sid = none ∧
    (∀ u : UserInfo, mapGet s.activeUsers sid = some u →
      mapGet ((disconnectHandler s sid now).fst).userSockets u.userId
        = none) := by
  refine ⟨?_, ?_, ?_, ?_, ?_, ?_, ?_⟩
  · intro k sess hget hp
    rw [disconnect_sessions_eq,
      mapGet_map_keyed _ (disconnectSession_key sid now)]
    obtain ⟨p, hfind, hpv⟩ := mapGet_find? s.sessions k sess hget
    rw [hfind]
    exact ⟨((disconnectSession sid now p).fst).snd, by simp,
      disconnectSession_ended sid now p (by rw [hpv]; exact hp)⟩
  · intro k sess hget hp he
    rw [disconnect_emits_eq, List.countP_append, roomEmits_count_pd,
      sessEmits_count_one sid now s.sessions k sess hnd hget hp he]
  · intro em hem dest k
    rw [disconnect_emits_eq, List.mem_append] at hem
    rcases hem with hem | hem
    · rw [List.mem_flatten] at hem
      obtain ⟨l, hl, heml⟩ := hem
      rw [List.mem_map] at hl
      obtain ⟨p, hp2, hpe⟩ := hl
      subst hpe
      rcases disconnectRoom_emits_shape sid (disconnectUsername s sid) p
        with h | h <;> rw [h] at heml
      · cases heml
      · simp only [List.mem_singleton] at heml
        subst heml
        simp
    · rw [List.mem_flatten] at hem
      obtain ⟨l, hl, heml⟩ := hem
      rw [List.mem_map] at hl
      obtain ⟨p, hp2, hpe⟩ := hl
      subst hpe
      rcases disconnectSession_emits_shape sid now p with h | ⟨partner, h⟩ <;>
        rw [h] at heml
      · cases heml
      · simp only [List.mem_singleton] at heml
        subst heml
        simp
  · rw [adviceQueue_disconnect, inQueue_removeFromQueue]
    simp
  · intro room members hget
    rw [disconnect_rooms_eq, mapGet_map_keyed _
      (disconnectRoom_key sid (disconnectUsername s sid))] at hget
    cases hf : s.roomMembers.find? (fun p => p.fst == room) with
    | none =>
      rw [hf] at hget
      cases hget
    | some p =>
      rw [hf] at hget
      simp only [Option.map_some'] at hget
      cases hget
      exact disconnectRoom_no_sid sid (disconnectUsername s sid) p
  · cases hu : mapGet s.activeUsers sid with
    | none =>
      have hax : ((disconnectHandler s sid now).fst).activeUsers
          = s.activeUsers := by
        simp [disconnectHandler, hu]
      rw [hax, hu]
    | some u =>
      have hax : ((disconnectHandler s sid now).fst).activeUsers
          = mapErase s.activeUsers sid := by
        simp [disconnectHandler, hu]
      rw [hax, mapGet_mapErase_self]
  · intro u hu
    have hux : ((disconnectHandler s sid now).fst).userSockets
        = mapErase s.userSockets u.userId := by
      simp [disconnectHandler, hu]
    rw [hux, mapGet_mapErase_self]

/-- Witness for C8 at the concrete state: the session ends, the partner is
notified exactly once, and queue, room and registry entries are purged. -/
theorem c8_witness :
    (∃ sess2 : Session,
      mapGet ((disconnectHandler c8State "sD" 30).fst).sessions "sess1"
        = some sess2 ∧ sess2.ended = true) ∧
    ((disconnectHandler c8State "sD" 30).snd).countP
      (fun em => em == Emit.partnerDisconnected (partnerOf c8Sess "sD")
        "sess1") = 1 ∧
    inQueue ((disconnectHandler c8State "sD" 30).fst).adviceQueue "sD"
      = false ∧
    mapGet ((disconnectHandler c8State "sD" 30).fst).activeUsers "sD"
      = none ∧
    mapGet ((disconnectHandler c8State "sD" 30).fst).userSockets "uD"
      = none := by
  have h := c8_disconnect_cascade c8State "sD" 30 (by decide)
  exact ⟨h.1 "sess1" c8Sess (by decide) (Or.inl (by decide)),
         h.2.1 "sess1" c8Sess (by decide) (Or.inl (by decide)) (by decide),
         h.2.2.2.1,
         h.2.2.2.2.2.1,
         h.2.2.2.2.2.2 c8UserD (by decide)⟩
